import Mathlib

/-!
Shallow embedding of `src/mensageria/irrigador/irrigador.c`, a RabbitMQ
consumer: it reads five environment variables, connects to the broker,
performs the login / channel-open / queue-declare / basic-consume
handshake (halting on the first non-normal reply), then loops receiving
messages until a non-normal receive outcome, and finally closes the
channel and the connection.

The broker library (rabbitmq-c) is external: its behaviour in one run is
modelled as a `Behavior` record carrying the reply each call will return
and the scripted sequence of receive outcomes.  The process environment
is a lookup function `Env`.  `run` is the embedding of `main`; it
returns the ordered trace of broker-library calls, the stdout and stderr
lines, the bodies handed to the message handler, and the exit code
(`none` models a run that blocks forever inside `amqp_consume_message`
because the script never yields a non-normal outcome).
-/

namespace Irrigation

/-- Process environment: a lookup from variable name to value. -/
def Env : Type := String → Option String

/-- Build an environment from an association list. -/
def envOf (l : List (String × String)) : Env :=
  fun k => (l.find? (fun kv => kv.fst == k)).map Prod.snd

/-- Digit run value used by `atoi`: the leading decimal digits. -/
def digitsValue (cs : List Char) : Nat :=
  (cs.takeWhile Char.isDigit).foldl (fun a c => a * 10 + (c.toNat - 48)) 0

/-- C `isspace` characters skipped by `atoi`. -/
def isCSpace (c : Char) : Bool :=
  c == ' ' || c == Char.ofNat 9 || c == Char.ofNat 10 ||
  c == Char.ofNat 11 || c == Char.ofNat 12 || c == Char.ofNat 13

/-- C `atoi`: skip whitespace, optional sign, leading digits (0 if none). -/
def atoi (s : String) : Int :=
  match s.toList.dropWhile isCSpace with
  | '-' :: rest => -(Int.ofNat (digitsValue rest))
  | '+' :: rest => Int.ofNat (digitsValue rest)
  | cs => Int.ofNat (digitsValue cs)

/-- SASL method argument of `amqp_login` (the source always passes PLAIN). -/
inductive SaslMethod
  | plain
  | otherMechanism
deriving DecidableEq, BEq, Repr

/-- An `amqp_rpc_reply_t` as discriminated by `die_on_amqp_error`:
the `reply_type` tag, and for `AMQP_RESPONSE_SERVER_EXCEPTION` the method
id together with the decoded close method's `reply_code`/`reply_text`
(meaningful when the id is a connection-close or channel-close method).
For `AMQP_RESPONSE_LIBRARY_EXCEPTION` we carry the rendered
`amqp_error_string2` text. -/
inductive RpcReply
  | normal
  | noReply
  | libraryException (msg : String)
  | serverException (methodId : Nat) (replyCode : Nat) (replyText : String)
deriving DecidableEq, BEq, Repr

/-- reply_type is `AMQP_RESPONSE_NORMAL` (the test of the consume loop). -/
def isNormal : RpcReply → Bool
  | .normal => true
  | _ => false

/-- AMQP method id of connection.close (class 10, method 50). -/
def AMQP_CONNECTION_CLOSE_METHOD : Nat := 0x000A0032

/-- AMQP method id of channel.close (class 20, method 40). -/
def AMQP_CHANNEL_CLOSE_METHOD : Nat := 0x00140028

/-- Render a natural as `%08X` (uppercase hex, zero-padded to 8 digits). -/
def hex08 (n : Nat) : String :=
  let ds := (Nat.toDigits 16 n).map Char.toUpper
  String.mk (List.replicate (8 - ds.length) '0' ++ ds)

/-- Embedding of `die_on_amqp_error`: `none` means the C function returns
to its caller (reply type NORMAL, no output); `some m` means it prints
the diagnostic line `m` on stderr and calls `exit(1)`. -/
def die_on_amqp_error : RpcReply → String → Option String
  | .normal, _ => none
  | .noReply, context => some (context ++ ": missing RPC reply type!")
  | .libraryException msg, context => some (context ++ ": " ++ msg)
  | .serverException methodId replyCode replyText, context =>
    if methodId = AMQP_CONNECTION_CLOSE_METHOD then
      some (context ++ ": server connection error " ++ toString replyCode ++
            "h, message: " ++ replyText)
    else if methodId = AMQP_CHANNEL_CLOSE_METHOD then
      some (context ++ ": server channel error " ++ toString replyCode ++
            "h, message: " ++ replyText)
    else
      some (context ++ ": unknown server error, method id 0x" ++ hex08 methodId)

/-- The five validated connection parameters read in `main`. -/
structure BrokerConfig where
  host : String
  port : Int
  queueName : String
  username : String
  password : String
deriving DecidableEq, Repr

/-- The environment keys `main` reads, in read order. -/
def requiredKeys : List String :=
  ["RABBITMQ_HOST", "RABBITMQ_PORT", "RABBITMQ_QUEUE",
   "RABBITMQ_USERNAME", "RABBITMQ_PASSWORD"]

/-- every required key is present in the environment. -/
def allPresent (env : Env) : Bool :=
  requiredKeys.all (fun k => (env k).isSome)

/-- The five `get_env` reads at the top of `main` (each `get_env` call
prints `env <key> is not set` on stdout and exits 1 when the key is
absent; the first missing key in read order wins). -/
def readConfig (env : Env) : Except String BrokerConfig :=
  match env "RABBITMQ_HOST" with
  | none => .error "RABBITMQ_HOST"
  | some host =>
    match env "RABBITMQ_PORT" with
    | none => .error "RABBITMQ_PORT"
    | some portStr =>
      match env "RABBITMQ_QUEUE" with
      | none => .error "RABBITMQ_QUEUE"
      | some queueName =>
        match env "RABBITMQ_USERNAME" with
        | none => .error "RABBITMQ_USERNAME"
        | some username =>
          match env "RABBITMQ_PASSWORD" with
          | none => .error "RABBITMQ_PASSWORD"
          | some password =>
            .ok ⟨host, atoi portStr, queueName, username, password⟩

/-- One call into the rabbitmq-c library, with the arguments `main`
passes (the connection-state argument is implicit: there is one). -/
inductive BrokerCall
  | newConnection
  | socketNew
  | socketOpen (host : String) (port : Int)
  | login (vhost : String) (channelMax : Nat) (frameMax : Nat)
      (heartbeat : Nat) (sasl : SaslMethod) (user : String) (pass : String)
  | channelOpen (channel : Nat)
  | getRpcReply
  | queueDeclare (channel : Nat) (queue : String)
      (passive : Nat) (durable : Nat) (exclusive : Nat) (autoDelete : Nat)
  | basicConsume (channel : Nat) (queue : String) (consumerTag : String)
      (noLocal : Nat) (noAck : Nat) (exclusive : Nat)
  | maybeReleaseBuffers
  | consumeMessage
  | destroyEnvelope
  | channelClose (channel : Nat) (code : Nat)
  | connectionClose (code : Nat)
  | destroyConnection
deriving DecidableEq, BEq, Repr

/-- One scripted outcome of `amqp_consume_message`: the rpc reply and,
when the reply is normal, the envelope's body bytes. -/
structure ConsumeStep where
  reply : RpcReply
  body : String
deriving DecidableEq, Repr

/-- What the broker library does in one run: the result of socket
creation and opening, the reply of each handshake / teardown call, and
the scripted receive outcomes. -/
structure Behavior where
  socketCreateOk : Bool
  socketOpenError : Bool
  loginReply : RpcReply
  channelOpenReply : RpcReply
  queueDeclareReply : RpcReply
  basicConsumeReply : RpcReply
  script : List ConsumeStep
  closeChannelReply : RpcReply
  closeConnectionReply : RpcReply
deriving DecidableEq, Repr

/-- Result of the consume loop: library calls made, stdout lines,
handler invocations (the body bytes of each handled envelope), and
whether the loop exited via its `break` (`false` = the script ran out
and the loop is blocked in `amqp_consume_message`). -/
structure LoopResult where
  calls : List BrokerCall
  out : List String
  handled : List String
  exited : Bool
deriving DecidableEq, Repr

/-- Embedding of the `while (1)` consume loop of `main`: each iteration
releases buffers and receives one outcome; a non-normal reply breaks out
of the loop, a normal reply prints the body line and the irrigating
line, then destroys the envelope and continues. -/
def consumeLoop : List ConsumeStep → LoopResult
  | [] => ⟨[.maybeReleaseBuffers, .consumeMessage], [], [], false⟩
  | st :: rest =>
    if isNormal st.reply then
      let r := consumeLoop rest
      ⟨.maybeReleaseBuffers :: .consumeMessage :: .destroyEnvelope :: r.calls,
       ("received message: " ++ st.body) :: "irrigating..." :: r.out,
       st.body :: r.handled,
       r.exited⟩
    else
      ⟨[.maybeReleaseBuffers, .consumeMessage], [], [], true⟩

/-- Observable result of one run of the process: broker-library call
trace, stdout lines, stderr lines, handled message bodies, and exit
code (`none` = the run never terminates). -/
structure RunResult where
  calls : List BrokerCall
  stdout : List String
  stderr : List String
  handled : List String
  exit : Option Nat
deriving DecidableEq, Repr

/-- Embedding of `main` from the point where the configuration has been
read: connection/socket creation, handshake, consume loop, teardown.
Argument order, parameter values and the halt-on-first-failure shape
mirror the source line by line. -/
def runSession (cfg : BrokerConfig) (b : Behavior) : RunResult :=
  let c0 : List BrokerCall := [.newConnection, .socketNew]
  if b.socketCreateOk = false then
    ⟨c0, [], ["failed to create socket"], [], some 1⟩
  else if b.socketOpenError = true then
    ⟨c0 ++ [.socketOpen cfg.host cfg.port], [],
     ["failed to connect to rabbitmq"], [], some 1⟩
  else
    let c1 := c0 ++ [.socketOpen cfg.host cfg.port,
      .login "/" 0 131072 0 .plain cfg.username cfg.password]
    match die_on_amqp_error b.loginReply "login" with
    | some m => ⟨c1, [], [m], [], some 1⟩
    | none =>
      let c2 := c1 ++ [.channelOpen 1, .getRpcReply]
      match die_on_amqp_error b.channelOpenReply "opening channel" with
      | some m => ⟨c2, [], [m], [], some 1⟩
      | none =>
        let c3 := c2 ++ [.queueDeclare 1 cfg.queueName 1 0 0 1, .getRpcReply]
        match die_on_amqp_error b.queueDeclareReply "declaring queue" with
        | some m => ⟨c3, [], [m], [], some 1⟩
        | none =>
          let c4 := c3 ++ [.basicConsume 1 cfg.queueName "" 0 1 0, .getRpcReply]
          match die_on_amqp_error b.basicConsumeReply "consuming" with
          | some m => ⟨c4, [], [m], [], some 1⟩
          | none =>
            let L := consumeLoop b.script
            let c5 := c4 ++ L.calls
            if L.exited = false then
              ⟨c5, L.out, [], L.handled, none⟩
            else
              let c6 := c5 ++ [.channelClose 1 200]
              match die_on_amqp_error b.closeChannelReply "closing channel" with
              | some m => ⟨c6, L.out, [m], L.handled, some 1⟩
              | none =>
                let c7 := c6 ++ [.connectionClose 200]
                match die_on_amqp_error b.closeConnectionReply "closing connection" with
                | some m => ⟨c7, L.out, [m], L.handled, some 1⟩
                | none =>
                  ⟨c7 ++ [.destroyConnection], L.out, [], L.handled, some 0⟩

/-- Embedding of `main`: the five `get_env` reads, then the session. -/
def run (env : Env) (b : Behavior) : RunResult :=
  match readConfig env with
  | .error k => ⟨[], ["env " ++ k ++ " is not set"], [], [], some 1⟩
  | .ok cfg => runSession cfg b

/-- The bootstrap stages of the spec's session state machine. -/
inductive Stage
  | connect
  | auth
  | openChannel
  | declareQueue
  | startConsuming
deriving DecidableEq, Repr

/-- Which bootstrap stage (if any) a library call realises. -/
def stageOf : BrokerCall → Option Stage
  | .socketOpen _ _ => some .connect
  | .login _ _ _ _ _ _ _ => some .auth
  | .channelOpen _ => some .openChannel
  | .queueDeclare _ _ _ _ _ _ => some .declareQueue
  | .basicConsume _ _ _ _ _ _ => some .startConsuming
  | _ => none

/-- Bootstrap stage order mandated by the spec. -/
def bootstrapStages : List Stage :=
  [.connect, .auth, .openChannel, .declareQueue, .startConsuming]

/-- The bootstrap-stage projection of a call trace. -/
def stageTrace (calls : List BrokerCall) : List Stage :=
  calls.filterMap stageOf

/-- How many bootstrap stages a run with broker behaviour `b` invokes
(given the configuration was read and stage k+1 is attempted exactly
when stage k's outcome was normal). -/
def stagesReached (b : Behavior) : Nat :=
  if b.socketCreateOk = false then 0
  else if b.socketOpenError = true then 1
  else if isNormal b.loginReply = false then 2
  else if isNormal b.channelOpenReply = false then 3
  else if isNormal b.queueDeclareReply = false then 4
  else 5

/-- The two shutdown steps. -/
inductive ShutStep
  | closeChannel
  | closeConnection
deriving DecidableEq, Repr

/-- Which shutdown step (if any) a library call realises. -/
def shutStepOf : BrokerCall → Option ShutStep
  | .channelClose _ _ => some .closeChannel
  | .connectionClose _ => some .closeConnection
  | _ => none

/-- The shutdown-step projection of a call trace. -/
def shutTrace (calls : List BrokerCall) : List ShutStep :=
  calls.filterMap shutStepOf

/-- Wire-level parameters the spec fixes, per call shape: vhost "/",
plain SASL, frame max 131072, heartbeat 0; channel id 1 on every
channel-bearing operation; queue declared passive, non-durable,
non-exclusive, auto-delete; consume with empty tag, no-local off,
auto-ack on, non-exclusive. -/
def wireConformant : BrokerCall → Bool
  | .login vhost _ frameMax heartbeat sasl _ _ =>
    vhost == "/" && frameMax == 131072 && heartbeat == 0 &&
      (match sasl with | .plain => true | .otherMechanism => false)
  | .channelOpen ch => ch == 1
  | .queueDeclare ch _ passive durable exclusive autoDelete =>
    ch == 1 && passive == 1 && durable == 0 && exclusive == 0 && autoDelete == 1
  | .basicConsume ch _ tag noLocal noAck exclusive =>
    ch == 1 && tag == "" && noLocal == 0 && noAck == 1 && exclusive == 0
  | .channelClose ch _ => ch == 1
  | _ => true

/-- the script contains a non-normal receive outcome, so the loop's
`break` is eventually taken. -/
def scriptExits (s : List ConsumeStep) : Bool :=
  s.any (fun st => !(isNormal st.reply))

/-- Concrete environment with every required key set (spec scenario). -/
def goodEnv : Env :=
  envOf [("RABBITMQ_HOST", "localhost"), ("RABBITMQ_PORT", "5672"),
         ("RABBITMQ_QUEUE", "irrigation"), ("RABBITMQ_USERNAME", "u"),
         ("RABBITMQ_PASSWORD", "p")]

/-- Concrete environment using the claim's `BROKER_*` names instead of
the names the source reads. -/
def brokerNamesEnv : Env :=
  envOf [("BROKER_HOST", "localhost"), ("BROKER_PORT", "5672"),
         ("BROKER_QUEUE", "irrigation"), ("BROKER_USERNAME", "u"),
         ("BROKER_PASSWORD", "p")]

/-- Concrete environment where every required key is set to the empty
string. -/
def emptyValsEnv : Env :=
  envOf [("RABBITMQ_HOST", ""), ("RABBITMQ_PORT", ""),
         ("RABBITMQ_QUEUE", ""), ("RABBITMQ_USERNAME", ""),
         ("RABBITMQ_PASSWORD", "")]

/-- Concrete environment missing `RABBITMQ_QUEUE` only. -/
def noQueueEnv : Env :=
  envOf [("RABBITMQ_HOST", "localhost"), ("RABBITMQ_PORT", "5672"),
         ("RABBITMQ_USERNAME", "u"), ("RABBITMQ_PASSWORD", "p")]

/-- Broker behaviour where everything succeeds, two messages arrive and
then the connection drops. -/
def bAllNormal : Behavior :=
  { socketCreateOk := true, socketOpenError := false,
    loginReply := .normal, channelOpenReply := .normal,
    queueDeclareReply := .normal, basicConsumeReply := .normal,
    script := [⟨.normal, "open_valve_1"⟩, ⟨.normal, "close_valve_1"⟩,
               ⟨.libraryException "a socket error occurred", ""⟩],
    closeChannelReply := .normal, closeConnectionReply := .normal }

/-- Broker behaviour where opening the channel fails with a server
connection error. -/
def bChannelOpenFails : Behavior :=
  { bAllNormal with
    channelOpenReply := .serverException AMQP_CONNECTION_CLOSE_METHOD 320 "CONNECTION_FORCED" }

/-- Broker behaviour where closing the channel fails. -/
def bCloseChannelFails : Behavior :=
  { bAllNormal with
    closeChannelReply := .serverException AMQP_CHANNEL_CLOSE_METHOD 406 "PRECONDITION_FAILED" }

/-- Broker behaviour where the login reply is missing. -/
def bLoginFails : Behavior :=
  { bAllNormal with loginReply := .noReply }

/-- The configuration `readConfig` produces from `goodEnv`. -/
def cfgGood : BrokerConfig :=
  ⟨"localhost", atoi "5672", "irrigation", "u", "p"⟩

/-! Helper lemmas shared by several claims. -/

theorem isNormal_true_iff (r : RpcReply) : isNormal r = true ↔ r = .normal := by
  cases r <;> simp [isNormal]

theorem isNormal_false_iff (r : RpcReply) : isNormal r = false ↔ r ≠ .normal := by
  cases r <;> simp [isNormal]

theorem die_eq_none_iff (r : RpcReply) (context : String) :
    die_on_amqp_error r context = none ↔ r = .normal := by
  cases r with
  | normal => simp [die_on_amqp_error]
  | noReply => simp [die_on_amqp_error]
  | libraryException msg => simp [die_on_amqp_error]
  | serverException mid code text =>
    simp only [die_on_amqp_error]
    constructor
    · intro h
      split at h
      · simp at h
      · split at h <;> simp at h
    · intro h
      simp at h

theorem die_some_of_ne (r : RpcReply) (context : String) (h : r ≠ .normal) :
    ∃ m, die_on_amqp_error r context = some m := by
  rcases hd : die_on_amqp_error r context with _ | m
  · exact absurd ((die_eq_none_iff r context).mp hd) h
  · exact ⟨m, rfl⟩

theorem consumeLoop_stage_calls (s : List ConsumeStep) :
    (consumeLoop s).calls.filterMap stageOf = [] := by
  induction s with
  | nil => simp [consumeLoop, stageOf]
  | cons st rest ih =>
    cases hr : isNormal st.reply <;>
      simp [consumeLoop, hr, stageOf, ih]

theorem consumeLoop_shut_calls (s : List ConsumeStep) :
    (consumeLoop s).calls.filterMap shutStepOf = [] := by
  induction s with
  | nil => simp [consumeLoop, shutStepOf]
  | cons st rest ih =>
    cases hr : isNormal st.reply <;>
      simp [consumeLoop, hr, shutStepOf, ih]

theorem consumeLoop_wire (s : List ConsumeStep) :
    (consumeLoop s).calls.all wireConformant = true := by
  induction s with
  | nil => simp [consumeLoop, wireConformant]
  | cons st rest ih =>
    cases hr : isNormal st.reply <;>
      simp [consumeLoop, hr, wireConformant, ih]

theorem consumeLoop_exited (s : List ConsumeStep) :
    (consumeLoop s).exited = scriptExits s := by
  induction s with
  | nil => simp [consumeLoop, scriptExits]
  | cons st rest ih =>
    cases hr : isNormal st.reply <;>
      simp [consumeLoop, hr, scriptExits, ih]

theorem consumeLoop_handled (s : List ConsumeStep) :
    (consumeLoop s).handled =
      (s.takeWhile (fun st => isNormal st.reply)).map ConsumeStep.body := by
  induction s with
  | nil => simp [consumeLoop]
  | cons st rest ih =>
    cases hr : isNormal st.reply <;>
      simp [consumeLoop, hr, List.takeWhile_cons, ih]

theorem consumeLoop_out (s : List ConsumeStep) :
    (consumeLoop s).out =
      ((s.takeWhile (fun st => isNormal st.reply)).map
        (fun st => ["received message: " ++ st.body, "irrigating..."])).flatten := by
  induction s with
  | nil => simp [consumeLoop]
  | cons st rest ih =>
    cases hr : isNormal st.reply <;>
      simp [consumeLoop, hr, List.takeWhile_cons, ih]

theorem die_normal (context : String) :
    die_on_amqp_error .normal context = none := rfl

theorem die_ne_normal_of_some (r : RpcReply) (context m : String)
    (h : die_on_amqp_error r context = some m) : r ≠ .normal := by
  intro he
  rw [he] at h
  simp [die_on_amqp_error] at h

theorem run_eq_runSession (env : Env) (cfg : BrokerConfig) (b : Behavior)
    (h : readConfig env = Except.ok cfg) : run env b = runSession cfg b := by
  simp [run, h]

/-- One traversal of `runSession`'s control flow, collecting the facts
the lifecycle claims need: the bootstrap-stage trace is the mandated
order cut at the first failure; exit code 0 exactly when every stage,
the loop exit and both closes are normal; no exit code exactly when the
whole handshake succeeds but the script never yields a non-normal
outcome; the exit code is always 0, 1 or absent; every call is
wire-conformant; once the loop exits, the shutdown trace is
channel-close followed by connection-close when the channel close was
normal; and the declare/consume stages are only reached after the
previous stage's reply was normal. -/
theorem runSession_characterization (cfg : BrokerConfig) (b : Behavior) :
    stageTrace (runSession cfg b).calls = bootstrapStages.take (stagesReached b)
    ∧ ((runSession cfg b).exit = some 0 ↔
        (b.socketCreateOk = true ∧ b.socketOpenError = false
         ∧ b.loginReply = .normal ∧ b.channelOpenReply = .normal
         ∧ b.queueDeclareReply = .normal ∧ b.basicConsumeReply = .normal
         ∧ scriptExits b.script = true
         ∧ b.closeChannelReply = .normal ∧ b.closeConnectionReply = .normal))
    ∧ ((runSession cfg b).exit = none ↔
        (b.socketCreateOk = true ∧ b.socketOpenError = false
         ∧ b.loginReply = .normal ∧ b.channelOpenReply = .normal
         ∧ b.queueDeclareReply = .normal ∧ b.basicConsumeReply = .normal
         ∧ scriptExits b.script = false))
    ∧ ((runSession cfg b).exit = some 0 ∨ (runSession cfg b).exit = some 1
        ∨ (runSession cfg b).exit = none)
    ∧ (runSession cfg b).calls.all wireConformant = true
    ∧ (b.socketCreateOk = true → b.socketOpenError = false →
        b.loginReply = .normal → b.channelOpenReply = .normal →
        b.queueDeclareReply = .normal → b.basicConsumeReply = .normal →
        scriptExits b.script = true →
        shutTrace (runSession cfg b).calls =
          ShutStep.closeChannel ::
            (if isNormal b.closeChannelReply then [ShutStep.closeConnection] else []))
    ∧ (Stage.declareQueue ∈ stageTrace (runSession cfg b).calls →
        isNormal b.channelOpenReply = true)
    ∧ (Stage.startConsuming ∈ stageTrace (runSession cfg b).calls →
        isNormal b.queueDeclareReply = true) := by
  cases hsc : b.socketCreateOk with
  | false =>
    simp [runSession, die_normal, hsc, stageTrace, stagesReached, stageOf, bootstrapStages,
          shutTrace, shutStepOf, wireConformant]
  | true =>
    cases hso : b.socketOpenError with
    | true =>
      simp [runSession, die_normal, hsc, hso, stageTrace, stagesReached, stageOf, bootstrapStages,
            shutTrace, shutStepOf, wireConformant]
    | false =>
      rcases hd1 : die_on_amqp_error b.loginReply "login" with _ | m1
      case some =>
        have hlne := die_ne_normal_of_some _ _ _ hd1
        have hlf : isNormal b.loginReply = false := (isNormal_false_iff _).mpr hlne
        simp [runSession, die_normal, hsc, hso, hd1, hlne, hlf, stageTrace, stagesReached,
              stageOf, bootstrapStages, shutTrace, shutStepOf, wireConformant]
      case none =>
        have hl : b.loginReply = .normal := (die_eq_none_iff _ _).mp hd1
        rcases hd2 : die_on_amqp_error b.channelOpenReply "opening channel" with _ | m2
        case some =>
          have hcne := die_ne_normal_of_some _ _ _ hd2
          have hcf : isNormal b.channelOpenReply = false := (isNormal_false_iff _).mpr hcne
          simp [runSession, die_normal, hsc, hso, hd1, hd2, hl, hcne, hcf, isNormal, stageTrace,
                stagesReached, stageOf, bootstrapStages, shutTrace, shutStepOf,
                wireConformant]
        case none =>
          have hc : b.channelOpenReply = .normal := (die_eq_none_iff _ _).mp hd2
          rcases hd3 : die_on_amqp_error b.queueDeclareReply "declaring queue" with _ | m3
          case some =>
            have hqne := die_ne_normal_of_some _ _ _ hd3
            have hqf : isNormal b.queueDeclareReply = false := (isNormal_false_iff _).mpr hqne
            simp [runSession, die_normal, hsc, hso, hd1, hd2, hd3, hl, hc, hqne, hqf, isNormal,
                  stageTrace, stagesReached, stageOf, bootstrapStages, shutTrace,
                  shutStepOf, wireConformant]
          case none =>
            have hq : b.queueDeclareReply = .normal := (die_eq_none_iff _ _).mp hd3
            rcases hd4 : die_on_amqp_error b.basicConsumeReply "consuming" with _ | m4
            case some =>
              have hbne := die_ne_normal_of_some _ _ _ hd4
              simp [runSession, die_normal, hsc, hso, hd1, hd2, hd3, hd4, hl, hc, hq, hbne,
                    isNormal, stageTrace, stagesReached, stageOf, bootstrapStages,
                    shutTrace, shutStepOf, wireConformant]
            case none =>
              have hb4 : b.basicConsumeReply = .normal := (die_eq_none_iff _ _).mp hd4
              cases hex : scriptExits b.script with
              | false =>
                simp [runSession, die_normal, hsc, hso, hd1, hd2, hd3, hd4, hl, hc, hq, hb4, hex,
                      isNormal, stageTrace, stagesReached, stageOf, bootstrapStages,
                      shutTrace, shutStepOf, wireConformant, consumeLoop_exited,
                      consumeLoop_stage_calls, consumeLoop_shut_calls, consumeLoop_wire,
                      List.filterMap_append, List.all_append]
              | true =>
                rcases hd5 : die_on_amqp_error b.closeChannelReply "closing channel" with _ | m5
                case some =>
                  have hccne := die_ne_normal_of_some _ _ _ hd5
                  have hccf : isNormal b.closeChannelReply = false :=
                    (isNormal_false_iff _).mpr hccne
                  simp [runSession, die_normal, hsc, hso, hd1, hd2, hd3, hd4, hd5, hl, hc, hq, hb4,
                        hex, hccne, hccf, isNormal, stageTrace, stagesReached, stageOf,
                        bootstrapStages, shutTrace, shutStepOf, wireConformant,
                        consumeLoop_exited, consumeLoop_stage_calls,
                        consumeLoop_shut_calls, consumeLoop_wire,
                        List.filterMap_append, List.all_append]
                case none =>
                  have hcc : b.closeChannelReply = .normal := (die_eq_none_iff _ _).mp hd5
                  rcases hd6 : die_on_amqp_error b.closeConnectionReply "closing connection" with _ | m6
                  case some =>
                    have hcnne := die_ne_normal_of_some _ _ _ hd6
                    simp [runSession, die_normal, hsc, hso, hd1, hd2, hd3, hd4, hd5, hd6, hl, hc,
                          hq, hb4, hex, hcc, hcnne, isNormal, stageTrace, stagesReached,
                          stageOf, bootstrapStages, shutTrace, shutStepOf,
                          wireConformant, consumeLoop_exited, consumeLoop_stage_calls,
                          consumeLoop_shut_calls, consumeLoop_wire,
                          List.filterMap_append, List.all_append]
                  case none =>
                    have hcn : b.closeConnectionReply = .normal := (die_eq_none_iff _ _).mp hd6
                    simp [runSession, die_normal, hsc, hso, hd1, hd2, hd3, hd4, hd5, hd6, hl, hc,
                          hq, hb4, hex, hcc, hcn, isNormal, stageTrace, stagesReached,
                          stageOf, bootstrapStages, shutTrace, shutStepOf,
                          wireConformant, consumeLoop_exited, consumeLoop_stage_calls,
                          consumeLoop_shut_calls, consumeLoop_wire,
                          List.filterMap_append, List.all_append]

/-! Theorems settling the claims. -/

/-- Claim C1: when the broker yields N normal envelopes and then one
non-normal outcome, the consume loop invokes the handler exactly N
times and terminates there; with only normal outcomes the loop never
exits, so the first non-normal outcome is the only exit condition. -/
theorem claim1_loop_termination (bodies : List String) (final : ConsumeStep)
    (h : isNormal final.reply = false) :
    (consumeLoop (bodies.map (fun s => ConsumeStep.mk .normal s) ++ [final])).handled.length
        = bodies.length
    ∧ (consumeLoop (bodies.map (fun s => ConsumeStep.mk .normal s) ++ [final])).exited = true
    ∧ (consumeLoop (bodies.map (fun s => ConsumeStep.mk .normal s))).exited = false := by
  refine ⟨?_, ?_, ?_⟩
  · rw [consumeLoop_handled]
    induction bodies with
    | nil => simp [List.takeWhile_cons, h]
    | cons bd rest ih => simpa [List.takeWhile_cons, isNormal] using ih
  · rw [consumeLoop_exited]
    simp [scriptExits, h]
  · rw [consumeLoop_exited]
    simp [scriptExits, isNormal]

/-- Witness for C1 at N = 2. -/
theorem claim1_loop_termination_witness :
    (consumeLoop ([ "a", "b" ].map (fun s => ConsumeStep.mk .normal s)
        ++ [ConsumeStep.mk .noReply ""])).handled.length = 2
    ∧ (consumeLoop ([ "a", "b" ].map (fun s => ConsumeStep.mk .normal s)
        ++ [ConsumeStep.mk .noReply ""])).exited = true
    ∧ (consumeLoop ([ "a", "b" ].map (fun s => ConsumeStep.mk .normal s))).exited = false :=
  claim1_loop_termination ["a", "b"] (ConsumeStep.mk .noReply "") (by decide)

/-- Claim C8: the handler receives exactly the body bytes of each
successfully received envelope, in order, and stdout carries one
`received message` line with the raw body plus one `irrigating...` line
per received message. -/
theorem claim8_body_fidelity (script : List ConsumeStep) :
    (consumeLoop script).handled =
      (script.takeWhile (fun st => isNormal st.reply)).map ConsumeStep.body
    ∧ (consumeLoop script).out =
      ((script.takeWhile (fun st => isNormal st.reply)).map
        (fun st => ["received message: " ++ st.body, "irrigating..."])).flatten :=
  ⟨consumeLoop_handled script, consumeLoop_out script⟩

theorem readConfig_cases (env : Env) :
    (allPresent env = true ∧ ∃ cfg, readConfig env = Except.ok cfg)
    ∨ (allPresent env = false ∧ ∃ k, k ∈ requiredKeys ∧ readConfig env = Except.error k) := by
  cases h1 : env "RABBITMQ_HOST" with
  | none =>
    exact Or.inr ⟨by simp [allPresent, requiredKeys, h1], "RABBITMQ_HOST",
      by simp [requiredKeys], by simp [readConfig, h1]⟩
  | some v1 =>
    cases h2 : env "RABBITMQ_PORT" with
    | none =>
      exact Or.inr ⟨by simp [allPresent, requiredKeys, h1, h2], "RABBITMQ_PORT",
        by simp [requiredKeys], by simp [readConfig, h1, h2]⟩
    | some v2 =>
      cases h3 : env "RABBITMQ_QUEUE" with
      | none =>
        exact Or.inr ⟨by simp [allPresent, requiredKeys, h1, h2, h3], "RABBITMQ_QUEUE",
          by simp [requiredKeys], by simp [readConfig, h1, h2, h3]⟩
      | some v3 =>
        cases h4 : env "RABBITMQ_USERNAME" with
        | none =>
          exact Or.inr ⟨by simp [allPresent, requiredKeys, h1, h2, h3, h4],
            "RABBITMQ_USERNAME", by simp [requiredKeys],
            by simp [readConfig, h1, h2, h3, h4]⟩
        | some v4 =>
          cases h5 : env "RABBITMQ_PASSWORD" with
          | none =>
            exact Or.inr ⟨by simp [allPresent, requiredKeys, h1, h2, h3, h4, h5],
              "RABBITMQ_PASSWORD", by simp [requiredKeys],
              by simp [readConfig, h1, h2, h3, h4, h5]⟩
          | some v5 =>
            exact Or.inl ⟨by simp [allPresent, requiredKeys, h1, h2, h3, h4, h5],
              ⟨v1, atoi v2, v3, v4, v5⟩, by simp [readConfig, h1, h2, h3, h4, h5]⟩

/-- Claim C2: with the configuration readable, the bootstrap operations
occur in the strict order connect, login, open-channel, declare-queue,
start-consuming, cut off at the first failing stage (so no stage is
repeated or skipped and the trace is a cut of the mandated order);
declare-queue appears only if the open-channel reply was normal,
start-consuming only if the declare-queue reply was normal; and a
failure before the last stage makes the process exit with status 1. -/
theorem claim2_bootstrap_order (env : Env) (cfg : BrokerConfig) (b : Behavior)
    (hcfg : readConfig env = Except.ok cfg) :
    stageTrace (run env b).calls = bootstrapStages.take (stagesReached b)
    ∧ List.Sublist (stageTrace (run env b).calls) bootstrapStages
    ∧ (Stage.declareQueue ∈ stageTrace (run env b).calls →
        isNormal b.channelOpenReply = true)
    ∧ (Stage.startConsuming ∈ stageTrace (run env b).calls →
        isNormal b.queueDeclareReply = true)
    ∧ (stagesReached b < 5 → (run env b).exit = some 1) := by
  have hrun := run_eq_runSession env cfg b hcfg
  obtain ⟨h1, h2, h3, h4, -, -, h7, h8⟩ := runSession_characterization cfg b
  rw [hrun]
  refine ⟨h1, ?_, h7, h8, ?_⟩
  · rw [h1]; exact List.take_sublist _ _
  · intro hlt
    rcases h4 with h0 | hone | hn
    · exfalso
      obtain ⟨ha, hb', hc', hd', he', -, -, -, -⟩ := h2.mp h0
      have h5eq : stagesReached b = 5 := by
        simp [stagesReached, ha, hb', hc', hd', he', isNormal]
      omega
    · exact hone
    · exfalso
      obtain ⟨ha, hb', hc', hd', he', -, -⟩ := h3.mp hn
      have h5eq : stagesReached b = 5 := by
        simp [stagesReached, ha, hb', hc', hd', he', isNormal]
      omega

/-- Witness for C2: every hypothesis discharged at a concrete run in
which opening the channel fails. -/
theorem claim2_bootstrap_order_witness :
    stageTrace (run goodEnv bChannelOpenFails).calls
        = bootstrapStages.take (stagesReached bChannelOpenFails)
    ∧ List.Sublist (stageTrace (run goodEnv bChannelOpenFails).calls) bootstrapStages
    ∧ (Stage.declareQueue ∈ stageTrace (run goodEnv bChannelOpenFails).calls →
        isNormal bChannelOpenFails.channelOpenReply = true)
    ∧ (Stage.startConsuming ∈ stageTrace (run goodEnv bChannelOpenFails).calls →
        isNormal bChannelOpenFails.queueDeclareReply = true)
    ∧ (stagesReached bChannelOpenFails < 5 →
        (run goodEnv bChannelOpenFails).exit = some 1) :=
  claim2_bootstrap_order goodEnv ⟨"localhost", atoi "5672", "irrigation", "u", "p"⟩
    bChannelOpenFails (by rfl)

/-- Claim C3: the failure classifier returns control with no action on a
normal reply and only then; a missing reply type, a library exception,
a server connection-close (code and text), a server channel-close (code
and text) and an unrecognized method id (raw id, hex) each map to their
distinct diagnostic; and any non-normal classification is fatal: the
caller halts with exit status 1 and the diagnostic on the error
stream. -/
theorem claim3_classifier :
    (∀ context, die_on_amqp_error .normal context = none)
    ∧ (∀ r context, die_on_amqp_error r context = none ↔ r = .normal)
    ∧ (∀ context, die_on_amqp_error .noReply context
        = some (context ++ ": missing RPC reply type!"))
    ∧ (∀ context msg, die_on_amqp_error (.libraryException msg) context
        = some (context ++ ": " ++ msg))
    ∧ (∀ context code text,
        die_on_amqp_error (.serverException AMQP_CONNECTION_CLOSE_METHOD code text) context
        = some (context ++ ": server connection error " ++ toString code ++
                "h, message: " ++ text))
    ∧ (∀ context code text,
        die_on_amqp_error (.serverException AMQP_CHANNEL_CLOSE_METHOD code text) context
        = some (context ++ ": server channel error " ++ toString code ++
                "h, message: " ++ text))
    ∧ (∀ context mid code text, mid ≠ AMQP_CONNECTION_CLOSE_METHOD →
        mid ≠ AMQP_CHANNEL_CLOSE_METHOD →
        die_on_amqp_error (.serverException mid code text) context
        = some (context ++ ": unknown server error, method id 0x" ++ hex08 mid))
    ∧ (∀ cfg b, b.socketCreateOk = true → b.socketOpenError = false →
        isNormal b.loginReply = false →
        (runSession cfg b).exit = some 1
        ∧ ∃ m, die_on_amqp_error b.loginReply "login" = some m
            ∧ (runSession cfg b).stderr = [m]) := by
  refine ⟨fun context => rfl, die_eq_none_iff, fun context => rfl,
    fun context msg => rfl, ?_, ?_, ?_, ?_⟩
  · intro context code text
    simp [die_on_amqp_error]
  · intro context code text
    simp [die_on_amqp_error, AMQP_CONNECTION_CLOSE_METHOD, AMQP_CHANNEL_CLOSE_METHOD]
  · intro context mid code text hne1 hne2
    simp [die_on_amqp_error, hne1, hne2]
  · intro cfg b hsc hso hlf
    obtain ⟨m, hm⟩ := die_some_of_ne _ "login" ((isNormal_false_iff _).mp hlf)
    exact ⟨by simp [runSession, hsc, hso, hm], m, hm,
      by simp [runSession, hsc, hso, hm]⟩

/-- Witness for C3: the fatal branch applied at a run whose login reply
is missing, and the unknown-method branch at a concrete method id. -/
theorem claim3_classifier_witness :
    ((runSession (BrokerConfig.mk "localhost" 5672 "irrigation" "u" "p") bLoginFails).exit
        = some 1
      ∧ ∃ m, die_on_amqp_error bLoginFails.loginReply "login" = some m
          ∧ (runSession (BrokerConfig.mk "localhost" 5672 "irrigation" "u" "p")
              bLoginFails).stderr = [m])
    ∧ die_on_amqp_error (.serverException 99 0 "x") "c"
        = some ("c" ++ ": unknown server error, method id 0x" ++ hex08 99) :=
  ⟨claim3_classifier.2.2.2.2.2.2.2
      (BrokerConfig.mk "localhost" 5672 "irrigation" "u" "p") bLoginFails rfl rfl rfl,
    claim3_classifier.2.2.2.2.2.2.1 "c" 99 0 "x" (by decide) (by decide)⟩

/-- Claim C4: exit status 0 exactly when the configuration was read,
the socket and every handshake reply were fine, the loop exited and
both shutdown closes were normal; a missing environment variable gives
status 1; the only other possibilities are status 1 (any transport or
broker-reply failure at any stage, shutdown included) and not
terminating at all (the loop never sees a non-normal outcome). -/
theorem claim4_exit_codes (env : Env) (b : Behavior) :
    ((run env b).exit = some 0 ↔
      (allPresent env = true ∧ b.socketCreateOk = true ∧ b.socketOpenError = false
       ∧ b.loginReply = .normal ∧ b.channelOpenReply = .normal
       ∧ b.queueDeclareReply = .normal ∧ b.basicConsumeReply = .normal
       ∧ scriptExits b.script = true
       ∧ b.closeChannelReply = .normal ∧ b.closeConnectionReply = .normal))
    ∧ (allPresent env = false → (run env b).exit = some 1)
    ∧ ((run env b).exit = none ↔
      (allPresent env = true ∧ b.socketCreateOk = true ∧ b.socketOpenError = false
       ∧ b.loginReply = .normal ∧ b.channelOpenReply = .normal
       ∧ b.queueDeclareReply = .normal ∧ b.basicConsumeReply = .normal
       ∧ scriptExits b.script = false))
    ∧ ((run env b).exit = some 0 ∨ (run env b).exit = some 1
        ∨ (run env b).exit = none) := by
  rcases readConfig_cases env with ⟨hap, cfg, hok⟩ | ⟨hap, k, -, herr⟩
  · have hrun := run_eq_runSession env cfg b hok
    obtain ⟨-, h2, h3, h4, -, -, -, -⟩ := runSession_characterization cfg b
    rw [hrun]
    refine ⟨?_, ?_, ?_, h4⟩
    · rw [h2]; simp [hap]
    · intro hfal; rw [hap] at hfal; cases hfal
    · rw [h3]; simp [hap]
  · have hrun : run env b = ⟨[], ["env " ++ k ++ " is not set"], [], [], some 1⟩ := by
      simp [run, herr]
    rw [hrun]
    simp [hap]

/-- Witness for C4 at an environment missing `RABBITMQ_QUEUE`. -/
theorem claim4_exit_codes_witness :
    (run noQueueEnv bAllNormal).exit = some 1 :=
  (claim4_exit_codes noQueueEnv bAllNormal).2.1 (by rfl)

/-- Claim C6: every broker call of every run carries the fixed
wire-level parameters: vhost "/", plain SASL, frame max 131072,
heartbeat 0 on login; channel id 1 on every channel operation; queue
declared passive, non-durable, non-exclusive, auto-delete; consume with
empty consumer tag, no-local off, auto-ack on, non-exclusive. -/
theorem claim6_wire_parameters (env : Env) (b : Behavior) :
    (run env b).calls.all wireConformant = true := by
  rcases hrc : readConfig env with k | cfg
  · simp [run, hrc]
  · rw [run_eq_runSession env cfg b hrc]
    exact (runSession_characterization cfg b).2.2.2.2.1

/-- Claim C7: once the handshake succeeded and the loop exited, the
shutdown always runs: channel-close is invoked, followed by
connection-close exactly when the channel-close reply was normal (its
failure is fatal before the next step, as during bootstrap), each at
most once and in that order; and a non-normal reply to either close
makes the process exit with status 1. -/
theorem claim7_shutdown (env : Env) (cfg : BrokerConfig) (b : Behavior)
    (hcfg : readConfig env = Except.ok cfg)
    (hsc : b.socketCreateOk = true) (hso : b.socketOpenError = false)
    (hl : b.loginReply = .normal) (hc : b.channelOpenReply = .normal)
    (hq : b.queueDeclareReply = .normal) (hb : b.basicConsumeReply = .normal)
    (hx : scriptExits b.script = true) :
    shutTrace (run env b).calls =
      ShutStep.closeChannel ::
        (if isNormal b.closeChannelReply then [ShutStep.closeConnection] else [])
    ∧ (isNormal b.closeChannelReply = false → (run env b).exit = some 1)
    ∧ (isNormal b.closeConnectionReply = false → (run env b).exit = some 1) := by
  have hrun := run_eq_runSession env cfg b hcfg
  obtain ⟨-, h2, h3, h4, -, h6, -, -⟩ := runSession_characterization cfg b
  rw [hrun]
  have hnn : (runSession cfg b).exit ≠ none := by
    intro hall
    obtain ⟨-, -, -, -, -, -, hfal⟩ := h3.mp hall
    rw [hx] at hfal
    cases hfal
  refine ⟨h6 hsc hso hl hc hq hb hx, ?_, ?_⟩
  · intro hccf
    have hne0 : (runSession cfg b).exit ≠ some 0 := by
      intro hall
      obtain ⟨-, -, -, -, -, -, -, hcc, -⟩ := h2.mp hall
      rw [hcc] at hccf
      simp [isNormal] at hccf
    rcases h4 with h | h | h
    · exact absurd h hne0
    · exact h
    · exact absurd h hnn
  · intro hcnf
    have hne0 : (runSession cfg b).exit ≠ some 0 := by
      intro hall
      obtain ⟨-, -, -, -, -, -, -, -, hcn⟩ := h2.mp hall
      rw [hcn] at hcnf
      simp [isNormal] at hcnf
    rcases h4 with h | h | h
    · exact absurd h hne0
    · exact h
    · exact absurd h hnn

/-- Witness for C7 at a run whose channel close fails. -/
theorem claim7_shutdown_witness :
    shutTrace (run goodEnv bCloseChannelFails).calls =
      ShutStep.closeChannel ::
        (if isNormal bCloseChannelFails.closeChannelReply
         then [ShutStep.closeConnection] else [])
    ∧ (isNormal bCloseChannelFails.closeChannelReply = false →
        (run goodEnv bCloseChannelFails).exit = some 1)
    ∧ (isNormal bCloseChannelFails.closeConnectionReply = false →
        (run goodEnv bCloseChannelFails).exit = some 1) :=
  claim7_shutdown goodEnv ⟨"localhost", atoi "5672", "irrigation", "u", "p"⟩
    bCloseChannelFails (by rfl) rfl rfl rfl rfl rfl rfl rfl

/-- Counterexample to claim C5 as stated: with all five `BROKER_*`-named
variables set, the process still terminates with status 1 before any
broker call, reporting that `RABBITMQ_HOST` is unset — so the required
keys are not named `BROKER_*`. -/
theorem claim5_counterexample :
    (run brokerNamesEnv bAllNormal).exit = some 1
    ∧ (run brokerNamesEnv bAllNormal).stdout = ["env RABBITMQ_HOST is not set"]
    ∧ (run brokerNamesEnv bAllNormal).calls = [] :=
  ⟨rfl, rfl, rfl⟩

/-- Claim C5 amended: the five required environment variables are named
`RABBITMQ_HOST`, `RABBITMQ_PORT`, `RABBITMQ_QUEUE`, `RABBITMQ_USERNAME`,
`RABBITMQ_PASSWORD`; if exactly one is absent, the process terminates
with status 1 before any broker call and its single diagnostic line
names exactly the missing key. -/
theorem claim5_required_env (env : Env) (b : Behavior) (k : String)
    (hk : k ∈ requiredKeys) (habs : env k = none)
    (hoth : ∀ k2, k2 ∈ requiredKeys → k2 ≠ k → (env k2).isSome = true) :
    (run env b).calls = []
    ∧ (run env b).exit = some 1
    ∧ (run env b).stdout = ["env " ++ k ++ " is not set"] := by
  simp only [requiredKeys, List.mem_cons, List.not_mem_nil, or_false] at hk
  rcases hk with h | h | h | h | h <;> subst h
  · simp [run, readConfig, habs]
  · obtain ⟨v1, hv1⟩ := Option.isSome_iff_exists.mp
      (hoth "RABBITMQ_HOST" (by simp [requiredKeys]) (by decide))
    simp [run, readConfig, hv1, habs]
  · obtain ⟨v1, hv1⟩ := Option.isSome_iff_exists.mp
      (hoth "RABBITMQ_HOST" (by simp [requiredKeys]) (by decide))
    obtain ⟨v2, hv2⟩ := Option.isSome_iff_exists.mp
      (hoth "RABBITMQ_PORT" (by simp [requiredKeys]) (by decide))
    simp [run, readConfig, hv1, hv2, habs]
  · obtain ⟨v1, hv1⟩ := Option.isSome_iff_exists.mp
      (hoth "RABBITMQ_HOST" (by simp [requiredKeys]) (by decide))
    obtain ⟨v2, hv2⟩ := Option.isSome_iff_exists.mp
      (hoth "RABBITMQ_PORT" (by simp [requiredKeys]) (by decide))
    obtain ⟨v3, hv3⟩ := Option.isSome_iff_exists.mp
      (hoth "RABBITMQ_QUEUE" (by simp [requiredKeys]) (by decide))
    simp [run, readConfig, hv1, hv2, hv3, habs]
  · obtain ⟨v1, hv1⟩ := Option.isSome_iff_exists.mp
      (hoth "RABBITMQ_HOST" (by simp [requiredKeys]) (by decide))
    obtain ⟨v2, hv2⟩ := Option.isSome_iff_exists.mp
      (hoth "RABBITMQ_PORT" (by simp [requiredKeys]) (by decide))
    obtain ⟨v3, hv3⟩ := Option.isSome_iff_exists.mp
      (hoth "RABBITMQ_QUEUE" (by simp [requiredKeys]) (by decide))
    obtain ⟨v4, hv4⟩ := Option.isSome_iff_exists.mp
      (hoth "RABBITMQ_USERNAME" (by simp [requiredKeys]) (by decide))
    simp [run, readConfig, hv1, hv2, hv3, hv4, habs]

/-- Witness for amended C5 at an environment whose only missing key is
`RABBITMQ_QUEUE`. -/
theorem claim5_required_env_witness :
    (run noQueueEnv bAllNormal).calls = []
    ∧ (run noQueueEnv bAllNormal).exit = some 1
    ∧ (run noQueueEnv bAllNormal).stdout = ["env " ++ "RABBITMQ_QUEUE" ++ " is not set"] :=
  claim5_required_env noQueueEnv bAllNormal "RABBITMQ_QUEUE" (by decide) (by rfl)
    (by
      intro k2 hk2 hne
      simp only [requiredKeys, List.mem_cons, List.not_mem_nil, or_false] at hk2
      rcases hk2 with h | h | h | h | h <;> subst h
      · rfl
      · rfl
      · exact absurd rfl hne
      · rfl
      · rfl)

/-- Counterexample to claim C9 as stated: with every required variable
set to the empty string, the startup configuration is produced with all
string fields empty (and port 0), and the process still proceeds to
broker interaction — the non-emptiness invariant does not hold. -/
theorem claim9_counterexample :
    readConfig emptyValsEnv = Except.ok (BrokerConfig.mk "" 0 "" "" "")
    ∧ (run emptyValsEnv bAllNormal).calls ≠ [] :=
  ⟨rfl, by decide⟩

/-- Claim C9 amended: the BrokerConfig is constructed exactly once from
the environment before any broker interaction (if the configuration
cannot be read, no broker call happens) and every field is non-null:
the string fields are verbatim the present environment values and the
port is their `atoi`; being a pure value, it is immutable.  Emptiness,
however, is not validated: a field may be the empty string. -/
theorem claim9_config_fields (env : Env) (cfg : BrokerConfig)
    (h : readConfig env = Except.ok cfg) :
    env "RABBITMQ_HOST" = some cfg.host
    ∧ (∃ p, env "RABBITMQ_PORT" = some p ∧ cfg.port = atoi p)
    ∧ env "RABBITMQ_QUEUE" = some cfg.queueName
    ∧ env "RABBITMQ_USERNAME" = some cfg.username
    ∧ env "RABBITMQ_PASSWORD" = some cfg.password
    ∧ (∀ env2 b k, readConfig env2 = Except.error k → (run env2 b).calls = []) := by
  cases h1 : env "RABBITMQ_HOST" with
  | none => simp [readConfig, h1] at h
  | some v1 =>
    cases h2 : env "RABBITMQ_PORT" with
    | none => simp [readConfig, h1, h2] at h
    | some v2 =>
      cases h3 : env "RABBITMQ_QUEUE" with
      | none => simp [readConfig, h1, h2, h3] at h
      | some v3 =>
        cases h4 : env "RABBITMQ_USERNAME" with
        | none => simp [readConfig, h1, h2, h3, h4] at h
        | some v4 =>
          cases h5 : env "RABBITMQ_PASSWORD" with
          | none => simp [readConfig, h1, h2, h3, h4, h5] at h
          | some v5 =>
            have hcfg : BrokerConfig.mk v1 (atoi v2) v3 v4 v5 = cfg := by
              simp [readConfig, h1, h2, h3, h4, h5] at h
              exact h
            subst hcfg
            exact ⟨rfl, ⟨v2, rfl, rfl⟩, rfl, rfl, rfl,
              fun env2 b k hk => by simp [run, hk]⟩

/-- Witness for amended C9 at the fully populated environment. -/
theorem claim9_config_fields_witness :
    goodEnv "RABBITMQ_HOST" = some cfgGood.host
    ∧ (∃ p, goodEnv "RABBITMQ_PORT" = some p ∧ cfgGood.port = atoi p)
    ∧ goodEnv "RABBITMQ_QUEUE" = some cfgGood.queueName
    ∧ goodEnv "RABBITMQ_USERNAME" = some cfgGood.username
    ∧ goodEnv "RABBITMQ_PASSWORD" = some cfgGood.password
    ∧ (∀ env2 b k, readConfig env2 = Except.error k → (run env2 b).calls = []) :=
  claim9_config_fields goodEnv cfgGood (by rfl)

/-- Claim C10: the program is deterministic in its external inputs: two
runs given equal environments and equal broker behaviour produce the
same stdout lines, the same stderr lines and the same exit code. -/
theorem claim10_deterministic (env1 env2 : Env) (b1 b2 : Behavior)
    (henv : ∀ k, env1 k = env2 k) (hb : b1 = b2) :
    (run env1 b1).stdout = (run env2 b2).stdout
    ∧ (run env1 b1).stderr = (run env2 b2).stderr
    ∧ (run env1 b1).exit = (run env2 b2).exit := by
  have he : env1 = env2 := funext henv
  subst he
  subst hb
  exact ⟨rfl, rfl, rfl⟩

/-- Witness for C10 at the concrete scenario inputs. -/
theorem claim10_deterministic_witness :
    (run goodEnv bAllNormal).stdout = (run goodEnv bAllNormal).stdout
    ∧ (run goodEnv bAllNormal).stderr = (run goodEnv bAllNormal).stderr
    ∧ (run goodEnv bAllNormal).exit = (run goodEnv bAllNormal).exit :=
  claim10_deterministic goodEnv goodEnv bAllNormal bAllNormal (fun _ => rfl) rfl

end Irrigation
